import Mathlib

/-!
Verification development for the uni-toolkit training orchestrator
(uni/runners.py, uni/algorithms.py).  The Python code is shallowly embedded:
pure methods become Lean functions, instance attributes become explicit state
records threaded through the functions, network calls become an explicit
oracle of type ApiCall → Except NetError ApiResponse, and exceptions become
Except results.
-/

namespace Uni

/-- Python-level parameter values as they flow through UniRunner.parameter:
None, integers, strings, and floats (modelled as rationals). -/
inductive PyVal where
  | pynone
  | pyint (n : ℤ)
  | pystr (s : String)
  | pyrat (q : ℚ)
deriving DecidableEq, Repr

/-- A parameter cleaner: callable(value) that returns a cleaned value or
raises (modelled as Except with the exception text). -/
def Cleaner : Type := PyVal → Except String PyVal

/-- The five parameter sources scanned by UniRunner.parameter, in program
order: PARAMETERS_OVERRIDDEN, os.environ, runner PARAMETERS, algorithm
PARAMETERS, environment PARAMETERS.  A Python dict is a partial map;
a key that maps to a present None is `some PyVal.pynone`. -/
structure ParamSources where
  overridden : String → Option PyVal
  environ : String → Option PyVal
  runner_defaults : String → Option PyVal
  algorithm_defaults : String → Option PyVal
  environment_defaults : String → Option PyVal

/-- The three cleaner sources scanned by UniRunner.parameter, in program
order: runner PARAMETERS_CLEANERS, algorithm PARAMETERS_CLEANERS,
environment PARAMETERS_CLEANERS. -/
structure CleanerSources where
  runner_cleaners : String → Option Cleaner
  algorithm_cleaners : String → Option Cleaner
  environment_cleaners : String → Option Cleaner

/-- UniConfigurationError as raised by UniRunner.parameter: either the
parameter is missing from every source, or a cleaner rejected the found
value (the error message carries the name, the offending value and the
cleaner failure reason). -/
inductive UniConfigurationError where
  | missing (name : String)
  | wrongFormat (name : String) (value : PyVal) (reason : String)
deriving DecidableEq, Repr

/-- The for-break scan over the five parameter sources (runners.py, the
first loop of UniRunner.parameter): first source containing the name wins;
the for-else branch (no source contains the name) yields none. -/
def scanSources (src : ParamSources) (name : String) : Option PyVal :=
  match src.overridden name with
  | some v => some v
  | Option.none =>
    match src.environ name with
    | some v => some v
    | Option.none =>
      match src.runner_defaults name with
      | some v => some v
      | Option.none =>
        match src.algorithm_defaults name with
        | some v => some v
        | Option.none => src.environment_defaults name

/-- The for-break scan over the three cleaner sources (second loop of
UniRunner.parameter): the first cleaner source containing the name wins
and the loop breaks, so at most one cleaner applies. -/
def findCleaner (cl : CleanerSources) (name : String) : Option Cleaner :=
  match cl.runner_cleaners name with
  | some c => some c
  | Option.none =>
    match cl.algorithm_cleaners name with
    | some c => some c
    | Option.none => cl.environment_cleaners name

/-- The cleaner stage of UniRunner.parameter applied to an already-found
value: apply the first registered cleaner, if any; a cleaner that raises is
re-raised as UniConfigurationError carrying the value and the reason. -/
def cleanStage (cl : CleanerSources) (name : String) (value : PyVal) :
    Except UniConfigurationError PyVal :=
  match findCleaner cl name with
  | Option.none => Except.ok value
  | some c =>
    match c value with
    | Except.ok cleaned => Except.ok cleaned
    | Except.error reason =>
        Except.error (UniConfigurationError.wrongFormat name value reason)

/-- UniRunner.parameter: scan the five sources for the name; if absent from
all, raise UniConfigurationError (a present None is a value, not absence);
otherwise run the cleaner stage on the found value. -/
def parameter (src : ParamSources) (cl : CleanerSources) (name : String) :
    Except UniConfigurationError PyVal :=
  match scanSources src name with
  | Option.none => Except.error (UniConfigurationError.missing name)
  | some value => cleanStage cl name value

/-- Checkpoint bookkeeping of UniRunner: _best_last_saved_model_score
(None until the first save) and _last_episode_number_saved (0 initially). -/
structure RunState where
  best_last_saved_model_score : Option ℚ
  last_episode_number_saved : ℤ
deriving DecidableEq, Repr

/-- The fresh state set up by UniRunner.__init__. -/
def initRunState : RunState :=
  { best_last_saved_model_score := Option.none, last_episode_number_saved := 0 }

/-- UniRunner.should_save_model: save iff the episode distance since the
last save strictly exceeds MODEL_SAVE_FREQUENCY and the score strictly
improves on the best saved score (or no model was saved yet). -/
def should_save_model (model_save_frequency : ℤ) (st : RunState)
    (model_score : ℚ) (episode_number : ℤ) : Bool :=
  let is_not_too_frequent : Bool :=
    decide (episode_number - st.last_episode_number_saved > model_save_frequency)
  let has_greater_score : Bool :=
    match st.best_last_saved_model_score with
    | Option.none => true
    | some best => decide (model_score > best)
  is_not_too_frequent && has_greater_score

/-- The state update performed by UniRunner.model_save:
_best_last_saved_model_score := score, _last_episode_number_saved := episode. -/
def model_save_state (_st : RunState) (model_score : ℚ) (episode_number : ℤ) :
    RunState :=
  { best_last_saved_model_score := some model_score,
    last_episode_number_saved := episode_number }

/-- Python negative-index tail slice l[-w:] on a list, for a non-negative
width w: for w = 0 the slice index is 0 and the whole list is returned;
otherwise the start index is len - w clamped at 0 (Nat subtraction). -/
def pyTailSlice (l : List ℚ) (w : Nat) : List ℚ :=
  if w = 0 then l else l.drop (l.length - w)

/-- np.mean: sum divided by length (on rationals). -/
def listMean (l : List ℚ) : ℚ := l.sum / (l.length : ℚ)

/-- Python/NumPy round-half-to-even of a rational to an integer. -/
def roundHalfToEven (q : ℚ) : ℤ :=
  if q - ⌊q⌋ < 1 / 2 then ⌊q⌋
  else if q - ⌊q⌋ > 1 / 2 then ⌊q⌋ + 1
  else if 2 ∣ ⌊q⌋ then ⌊q⌋ else ⌊q⌋ + 1

/-- round(x, 1): round to one decimal digit, half to even. -/
def pyRound1 (q : ℚ) : ℚ := (roundHalfToEven (q * 10) : ℚ) / 10

/-- UniRunner.get_model_score:
round(np.mean(episodes_rewards[-MODEL_SAVE_BEST_LAST_MEAN:]), 1). -/
def get_model_score (episodes_rewards : List ℚ)
    (model_save_best_last_mean : Nat) : ℚ :=
  pyRound1 (listMean (pyTailSlice episodes_rewards model_save_best_last_mean))

/-- The trailing window as the spec words it: the last window-many entries,
or all entries when the history is shorter than the window. -/
def specTrailingWindow (hist : List ℚ) (w : Nat) : List ℚ :=
  if hist.length < w then hist else hist.drop (hist.length - w)

/-- Heartbeat bookkeeping of UniRunner: _last_update_episode_time and
_last_update_episode, both None until the first issued report.  Time is
modelled as a rational number of seconds. -/
structure SyncState where
  last_update_episode_time : Option ℚ
  last_update_episode : Option ℤ
deriving DecidableEq, Repr

/-- The fresh heartbeat state set up by UniRunner.__init__. -/
def initSyncState : SyncState :=
  { last_update_episode_time := Option.none, last_update_episode := Option.none }

/-- The outer throttling condition of UniRunner.update_episode_count:
force, or first report ever, or more than 5 seconds since the last issued
report (datetime.now() - _last_update_episode_time > timedelta(seconds=5)). -/
def heartbeatDue (st : SyncState) (now : ℚ) (force : Bool) : Bool :=
  force ||
    (match st.last_update_episode_time with
     | Option.none => true
     | some t => decide (now - t > 5))

/-- UniRunner.update_episode_count with the network call abstracted away:
returns the new state and whether a remote call was issued.  In local mode
nothing is sent; otherwise a call is issued only when the throttling
condition holds and the episode value changed from the last report, in
which case both bookkeeping attributes are set before the call. -/
def update_episode_count (isLocal : Bool) (st : SyncState) (now : ℚ)
    (episodes : ℤ) (force : Bool) : SyncState × Bool :=
  if isLocal then (st, false)
  else if heartbeatDue st now force then
    if st.last_update_episode ≠ some episodes then
      ({ last_update_episode_time := some now,
         last_update_episode := some episodes }, true)
    else (st, false)
  else (st, false)

/-- An exception raised by the requests library during an HTTP call
(connection failure, timeout, ...). -/
inductive NetError where
  | connectionError
  | timeoutError
deriving DecidableEq, Repr

/-- The parts of an HTTP response that runners.py inspects: status_code and,
for a 201 model-creation response, the JSON fields upload_url and id. -/
structure ApiResponse where
  status_code : ℤ
  upload_url : String
  model_id : ℤ
deriving DecidableEq, Repr

/-- The remote calls issued by UniRunner (heartbeat PATCH, model-score POST,
archive PUT, uploaded PATCH, finish POST). -/
inductive ApiCall where
  | patch_episodes (episodes : ℤ)
  | post_model_score (score : ℚ)
  | put_model_archive (url : String)
  | patch_model_uploaded (id : ℤ)
  | post_finish (failed : Bool)
deriving DecidableEq, Repr

/-- A network oracle: each call either returns a response or raises. -/
def Network : Type := ApiCall → Except NetError ApiResponse

/-- UniRunner._call_uni_api: builds the endpoint and headers and performs
getattr(requests, verb)(...) with no try/except, so a raised network
exception propagates to the caller unchanged. -/
def call_uni_api (net : Network) (c : ApiCall) : Except NetError ApiResponse :=
  net c

/-- Log events emitted by the remote part of UniRunner.model_save. -/
inductive LogEvent where
  | info_saving (score : ℚ)
  | info_uploading
  | info_uploaded
  | warning_upload_error (status : ℤ)
  | info_skip_upload (score : ℚ)
  | error_api (status : ℤ)
deriving DecidableEq, Repr

/-- UniRunner.update_episode_count with the network call made explicit.
The two bookkeeping attributes are assigned before _call_uni_api runs, and
there is no try/except around the call: if requests raises, the exception
propagates out of the method (second component Except.error). -/
def update_episode_count_api (net : Network) (isLocal : Bool) (st : SyncState)
    (now : ℚ) (episodes : ℤ) (force : Bool) : SyncState × Except NetError Bool :=
  if isLocal then (st, Except.ok false)
  else if heartbeatDue st now force then
    if st.last_update_episode ≠ some episodes then
      let st' : SyncState :=
        { last_update_episode_time := some now,
          last_update_episode := some episodes }
      match call_uni_api net (ApiCall.patch_episodes episodes) with
      | Except.ok _ => (st', Except.ok true)
      | Except.error e => (st', Except.error e)
    else (st, Except.ok false)
  else (st, Except.ok false)

/-- UniRunner.model_save with the network made explicit: algorithm.save runs
locally, the checkpoint state is updated, and then (unless local) the score
is POSTed; a 201 response leads to the archive PUT and, on 200, the uploaded
PATCH; a 204 skips the upload with an info log; any other status is logged
as an error.  None of the calls is wrapped in try/except, so a raised
network exception propagates (last component Except.error). -/
def model_save_api (net : Network) (isLocal : Bool) (st : RunState)
    (model_score : ℚ) (episode_number : ℤ) :
    RunState × List LogEvent × Except NetError Unit :=
  let st' := model_save_state st model_score episode_number
  if isLocal then (st', [LogEvent.info_saving model_score], Except.ok ())
  else
    match call_uni_api net (ApiCall.post_model_score model_score) with
    | Except.error e => (st', [LogEvent.info_saving model_score], Except.error e)
    | Except.ok response =>
      if response.status_code = 201 then
        match net (ApiCall.put_model_archive response.upload_url) with
        | Except.error e =>
            (st', [LogEvent.info_saving model_score, LogEvent.info_uploading],
             Except.error e)
        | Except.ok r2 =>
          if r2.status_code = 200 then
            match call_uni_api net (ApiCall.patch_model_uploaded response.model_id) with
            | Except.error e =>
                (st', [LogEvent.info_saving model_score, LogEvent.info_uploading],
                 Except.error e)
            | Except.ok _ =>
                (st', [LogEvent.info_saving model_score, LogEvent.info_uploading,
                       LogEvent.info_uploaded], Except.ok ())
          else
            (st', [LogEvent.info_saving model_score, LogEvent.info_uploading,
                   LogEvent.warning_upload_error r2.status_code], Except.ok ())
      else if response.status_code = 204 then
        (st', [LogEvent.info_saving model_score,
               LogEvent.info_skip_upload model_score], Except.ok ())
      else
        (st', [LogEvent.info_saving model_score,
               LogEvent.error_api response.status_code], Except.ok ())

/-- True when an Except value is a success. -/
def exceptOk {ε α : Type} : Except ε α → Bool
  | Except.ok _ => true
  | Except.error _ => false

/-- The argparse choices for --mode in UniRunner.get_parser. -/
def mode_choices : List String := ["train", "run"]

/-- The argparse behaviour of the --mode option: absent means the default
value train; a given value is accepted exactly when it is among the
declared choices, otherwise argparse rejects the command line. -/
def parse_mode : Option String → Except String String
  | Option.none => Except.ok "train"
  | some v =>
      if v ∈ mode_choices then Except.ok v
      else Except.error "invalid choice"

/-- The branches of UniRunner.run. -/
inductive RunBranch where
  | run_model_branch
  | run_training_branch
  | run_info_branch
  | unknown_mode
deriving DecidableEq, Repr

/-- The mode dispatch of UniRunner.run: run → run_model, train →
run_training (with finish notifications), info → run_info, anything else →
UniConfigurationError. -/
def run_dispatch (mode : String) : RunBranch :=
  if mode = "run" then RunBranch.run_model_branch
  else if mode = "train" then RunBranch.run_training_branch
  else if mode = "info" then RunBranch.run_info_branch
  else RunBranch.unknown_mode

/-- Observable calls made by UniRunner.run_model, tagged so the trace can
be inspected: the one-time algorithm.load, environment.reset at each episode
header, environment.render when enabled, algorithm.action, and
environment.step.  The tags action_train_query, save_model and remote_call
exist so the trace can state their absence; run_model has no code path that
emits them. -/
inductive RunEvent where
  | load
  | reset_env
  | render_env
  | action_query
  | env_step
  | action_train_query
  | save_model
  | remote_call
deriving DecidableEq, Repr

/-- The collaborators run_model drives: environment.reset,
environment.step (returning observation, reward, done) and
algorithm.action (episode, step, observation). -/
structure DemoEnv (Obs Act : Type) where
  reset : Obs
  stepf : Obs → Act → Obs × ℚ × Bool
  action : ℤ → ℤ → Obs → Act

/-- The local variables of UniRunner.run_model between loop iterations. -/
structure DemoState (Obs : Type) where
  episode : ℤ
  step : ℤ
  is_done : Bool
  observation : Obs
  episode_reward : ℚ

/-- One small step of the run_model loop nest.  When is_done holds, the
episode header runs: episode += 1, step = 0, is_done = False,
observation = reset(), reward = 0.  Otherwise one step-loop body runs:
step += 1, optional render, action = algorithm.action(...), then
environment.step, accumulating the reward. -/
def run_model_step {Obs Act : Type} (env : DemoEnv Obs Act) (doRender : Bool)
    (s : DemoState Obs) : DemoState Obs × List RunEvent :=
  if s.is_done then
    ({ episode := s.episode + 1, step := 0, is_done := false,
       observation := env.reset, episode_reward := 0 }, [RunEvent.reset_env])
  else
    let stepNumber := s.step + 1
    let renderEvents := if doRender then [RunEvent.render_env] else []
    let a := env.action s.episode stepNumber s.observation
    let r := env.stepf s.observation a
    ({ episode := s.episode, step := stepNumber, is_done := r.2.2,
       observation := r.1, episode_reward := s.episode_reward + r.2.1 },
     renderEvents ++ [RunEvent.action_query, RunEvent.env_step])

/-- The state of run_model on entry to the while True loop: episode = 0 and
is_done set so the first transition runs the episode header (the
observation field is a placeholder that the header immediately replaces). -/
def run_model_init {Obs Act : Type} (env : DemoEnv Obs Act) : DemoState Obs :=
  { episode := 0, step := 0, is_done := true,
    observation := env.reset, episode_reward := 0 }

/-- run_model simulated for a given number of loop transitions: the initial
algorithm.load, then fuel small steps, collecting the event trace.  The
source loop is while True with no break or return, so every state has a
successor: the simulation never reaches a halted configuration. -/
def run_model_trace {Obs Act : Type} (env : DemoEnv Obs Act) (doRender : Bool) :
    Nat → DemoState Obs × List RunEvent
  | 0 => (run_model_init env, [RunEvent.load])
  | n + 1 =>
    let p := run_model_trace env doRender n
    let q := run_model_step env doRender p.1
    (q.1, p.2 ++ q.2)

/-- Python dict.update on partial maps: keys of the update win. -/
def dict_update (d p : String → Option PyVal) : String → Option PyVal :=
  fun k =>
    match p k with
    | some v => some v
    | Option.none => d k

/-- The class-level mutable state of UniRunner: the PARAMETERS_OVERRIDDEN
dictionary, one per process, shared by every instance by reference. -/
structure ClassState where
  parameters_overridden : String → Option PyVal

/-- UniRunner.__init__ restricted to its effect on the shared class state:
when a parameters dict is passed, self.PARAMETERS_OVERRIDDEN.update(...)
mutates the class-level dictionary in place; with parameters=None the
shared dictionary is untouched. -/
def uni_runner_init (st : ClassState)
    (parameters : Option (String → Option PyVal)) : ClassState :=
  match parameters with
  | Option.none => st
  | some p => { parameters_overridden := dict_update st.parameters_overridden p }

/-- An instance's parameter lookup, with the shared class state threaded
explicitly: resolution reads the current PARAMETERS_OVERRIDDEN (the same
object for every instance) as its highest-precedence source and performs no
write, so the class state it returns is the one it was given. -/
def instance_parameter (st : ClassState)
    (environ runner_defaults algorithm_defaults environment_defaults :
      String → Option PyVal)
    (cl : CleanerSources) (name : String) :
    Except UniConfigurationError PyVal × ClassState :=
  (parameter
    { overridden := st.parameters_overridden, environ := environ,
      runner_defaults := runner_defaults,
      algorithm_defaults := algorithm_defaults,
      environment_defaults := environment_defaults } cl name, st)

/-- The local variables of UniRunner.run_training that its post-loop
statements reference; in Python each is unbound (Option.none) until the
first loop iteration assigns it. -/
structure TrainLocals where
  episodes_rewards : Option (List ℚ)
  model_score : Option ℚ
  episode : Option ℤ
deriving DecidableEq, Repr

/-- A Python runtime error: referencing a local variable before assignment. -/
inductive PyError where
  | unbound_local (varname : String)
deriving DecidableEq, Repr

/-- One iteration of the for loop of UniRunner.run_training over a yielded
reward batch: compute the model score and episode number, save the model
(updating the checkpoint state) when should_save_model says so, and bind
the three loop locals. -/
def run_training_iteration (freq : ℤ) (window : Nat)
    (p : RunState × TrainLocals) (batch : List ℚ) : RunState × TrainLocals :=
  let ms := get_model_score batch window
  let ep : ℤ := batch.length
  let st := p.1
  let st' := if should_save_model freq st ms ep then model_save_state st ms ep else st
  (st', { episodes_rewards := some batch, model_score := some ms, episode := some ep })

/-- UniRunner.run_training over the list of batches the training generator
yields: run the loop body on each batch, then execute the post-loop
statements update_episode_count(len(episodes_rewards), force=True) and
model_save(model_score, episode), which reference the loop locals and
raise an unbound-local error when the generator yielded nothing. -/
def run_training (freq : ℤ) (window : Nat) (st0 : RunState)
    (batches : List (List ℚ)) : Except PyError RunState :=
  let r := batches.foldl (run_training_iteration freq window)
    (st0, { episodes_rewards := Option.none, model_score := Option.none,
            episode := Option.none })
  match r.2.episodes_rewards with
  | Option.none => Except.error (PyError.unbound_local "episodes_rewards")
  | some _ =>
    match r.2.model_score, r.2.episode with
    | some ms, some ep => Except.ok (model_save_state r.1 ms ep)
    | _, _ => Except.error (PyError.unbound_local "model_score")

/-- UniAlgorithm.train as a batch source: for episode in range(1, episodes+1)
it appends the episode's total reward to episodes_rewards and yields the whole
list, so the i-th yielded batch is the first i+1 per-episode totals; with an
EPISODES budget of 0 the range is empty and nothing is yielded. -/
def train_batches (episodes : Nat) (episode_total : Nat → ℚ) : List (List ℚ) :=
  (List.range episodes).map (fun i => (List.range (i + 1)).map episode_total)

/-! ## Helper lemmas -/

/-- The source scan returns none exactly when every one of the five sources
lacks the name. -/
theorem scanSources_eq_none_iff (src : ParamSources) (name : String) :
    scanSources src name = Option.none ↔
      (src.overridden name = Option.none ∧ src.environ name = Option.none ∧
       src.runner_defaults name = Option.none ∧
       src.algorithm_defaults name = Option.none ∧
       src.environment_defaults name = Option.none) := by
  unfold scanSources
  cases h1 : src.overridden name <;>
    cases h2 : src.environ name <;>
      cases h3 : src.runner_defaults name <;>
        cases h4 : src.algorithm_defaults name <;> simp

/-- Resolution of a found value runs the cleaner stage on it. -/
theorem parameter_eq_of_found (src : ParamSources) (cl : CleanerSources)
    (name : String) (v : PyVal) (hs : scanSources src name = some v) :
    parameter src cl name = cleanStage cl name v := by
  simp [parameter, hs]

/-- Resolution of an absent name is the missing-parameter error. -/
theorem parameter_eq_of_missing (src : ParamSources) (cl : CleanerSources)
    (name : String) (hs : scanSources src name = Option.none) :
    parameter src cl name = Except.error (UniConfigurationError.missing name) := by
  simp [parameter, hs]

/-- With no registered cleaner the cleaner stage returns the value as is. -/
theorem cleanStage_of_no_cleaner (cl : CleanerSources) (name : String)
    (value : PyVal) (hc : findCleaner cl name = Option.none) :
    cleanStage cl name value = Except.ok value := by
  simp [cleanStage, hc]

/-- A succeeding cleaner yields the cleaned value. -/
theorem cleanStage_of_cleaner_ok (cl : CleanerSources) (name : String)
    (value cleaned : PyVal) (c : Cleaner) (hc : findCleaner cl name = some c)
    (hcv : c value = Except.ok cleaned) :
    cleanStage cl name value = Except.ok cleaned := by
  simp [cleanStage, hc, hcv]

/-- A raising cleaner yields the wrong-format error with value and reason. -/
theorem cleanStage_of_cleaner_error (cl : CleanerSources) (name : String)
    (value : PyVal) (reason : String) (c : Cleaner)
    (hc : findCleaner cl name = some c) (hcv : c value = Except.error reason) :
    cleanStage cl name value =
      Except.error (UniConfigurationError.wrongFormat name value reason) := by
  simp [cleanStage, hc, hcv]

/-! ## Claim theorems -/

/-- C2: should_save_model is true iff the episode distance since the last
save strictly exceeds MODEL_SAVE_FREQUENCY and the score is a strict
improvement (or no score was saved yet); and the concrete sequence
(episode 21, score 5), (25, 6), (42, 4) from the fresh state with spacing
20 yields true, false, false, the state being updated on the single save. -/
theorem c2_should_save_model :
    (∀ (freq : ℤ) (st : RunState) (score : ℚ) (ep : ℤ),
      should_save_model freq st score ep = true ↔
        (ep - st.last_episode_number_saved > freq ∧
          (st.best_last_saved_model_score = Option.none ∨
            ∃ b, st.best_last_saved_model_score = some b ∧ score > b))) ∧
    should_save_model 20 initRunState 5 21 = true ∧
    should_save_model 20 (model_save_state initRunState 5 21) 6 25 = false ∧
    should_save_model 20 (model_save_state initRunState 5 21) 4 42 = false := by
  refine ⟨?_, by decide, by decide, by decide⟩
  intro freq st score ep
  unfold should_save_model
  cases h : st.best_last_saved_model_score <;> simp [h]

/-- C5: get_model_score is the mean of the trailing window of the reward
history (all of it when shorter than the window), rounded to one decimal;
and history [1,2,3,4,5] with window 3 scores 4.0. -/
theorem c5_get_model_score (hist : List ℚ) (w : Nat)
    (_hne : hist ≠ []) (hw : 0 < w) :
    get_model_score hist w = pyRound1 (listMean (specTrailingWindow hist w)) ∧
    get_model_score [1, 2, 3, 4, 5] 3 = 4 := by
  refine ⟨?_,
    by norm_num [get_model_score, pyTailSlice, listMean, pyRound1, roundHalfToEven]⟩
  unfold get_model_score pyTailSlice specTrailingWindow
  have hw' : w ≠ 0 := Nat.pos_iff_ne_zero.mp hw
  by_cases h : hist.length < w
  · have hz : hist.length - w = 0 := Nat.sub_eq_zero_of_le (le_of_lt h)
    simp [hw', h, hz]
  · simp [hw', h]

/-- C5 witness: the theorem applied to history [1,2,3,4,5] and window 3. -/
theorem c5_get_model_score_witness :
    ([1, 2, 3, 4, 5] : List ℚ) ≠ [] ∧ 0 < 3 ∧
    get_model_score [1, 2, 3, 4, 5] 3 =
      pyRound1 (listMean (specTrailingWindow [1, 2, 3, 4, 5] 3)) :=
  ⟨by decide, by decide,
   (c5_get_model_score [1, 2, 3, 4, 5] 3 (by decide) (by decide)).1⟩

/-- C3: parameter resolution takes the value from the first source
containing the name, scanning overrides, process environment, runner
defaults, algorithm defaults, environment defaults in that order (so an
override beats the environment), and a name found with no registered
cleaner resolves to that source's value unchanged. -/
theorem c3_parameter_precedence (src : ParamSources) (cl : CleanerSources)
    (name : String) :
    (∀ v, src.overridden name = some v →
        parameter src cl name = cleanStage cl name v) ∧
    (src.overridden name = Option.none → ∀ v, src.environ name = some v →
        parameter src cl name = cleanStage cl name v) ∧
    (src.overridden name = Option.none → src.environ name = Option.none →
      ∀ v, src.runner_defaults name = some v →
        parameter src cl name = cleanStage cl name v) ∧
    (src.overridden name = Option.none → src.environ name = Option.none →
      src.runner_defaults name = Option.none →
      ∀ v, src.algorithm_defaults name = some v →
        parameter src cl name = cleanStage cl name v) ∧
    (src.overridden name = Option.none → src.environ name = Option.none →
      src.runner_defaults name = Option.none →
      src.algorithm_defaults name = Option.none →
      ∀ v, src.environment_defaults name = some v →
        parameter src cl name = cleanStage cl name v) ∧
    (∀ v, scanSources src name = some v → findCleaner cl name = Option.none →
        parameter src cl name = Except.ok v) := by
  refine ⟨?_, ?_, ?_, ?_, ?_, ?_⟩
  · intro v h
    simp [parameter, scanSources, h]
  · intro h1 v h
    simp [parameter, scanSources, h1, h]
  · intro h1 h2 v h
    simp [parameter, scanSources, h1, h2, h]
  · intro h1 h2 h3 v h
    simp [parameter, scanSources, h1, h2, h3, h]
  · intro h1 h2 h3 h4 v h
    simp [parameter, scanSources, h1, h2, h3, h4, h]
  · intro v h hc
    simp [parameter, h, cleanStage, hc]

/-- C3 witness: with an override and an environment value both present for
the same name and no cleaner registered, resolution returns the override. -/
theorem c3_parameter_precedence_witness :
    parameter
      { overridden := fun n => if n = "EPISODES" then some (PyVal.pyint 7) else Option.none,
        environ := fun n => if n = "EPISODES" then some (PyVal.pystr "9") else Option.none,
        runner_defaults := fun _ => Option.none,
        algorithm_defaults := fun _ => Option.none,
        environment_defaults := fun _ => Option.none }
      { runner_cleaners := fun _ => Option.none,
        algorithm_cleaners := fun _ => Option.none,
        environment_cleaners := fun _ => Option.none }
      "EPISODES" = Except.ok (PyVal.pyint 7) := by
  have h := (c3_parameter_precedence
    { overridden := fun n => if n = "EPISODES" then some (PyVal.pyint 7) else Option.none,
      environ := fun n => if n = "EPISODES" then some (PyVal.pystr "9") else Option.none,
      runner_defaults := fun _ => Option.none,
      algorithm_defaults := fun _ => Option.none,
      environment_defaults := fun _ => Option.none }
    { runner_cleaners := fun _ => Option.none,
      algorithm_cleaners := fun _ => Option.none,
      environment_cleaners := fun _ => Option.none }
    "EPISODES").1 (PyVal.pyint 7) (by simp)
  rw [h]
  rfl

/-- C4: parameter resolution fails exactly when the name is absent from all
five sources (raising the missing-parameter error) or the applied cleaner
raises (raising the wrong-format error that carries the offending value and
the cleaner's reason); a present None resolves to None; and the cleaner
applied is the first found among runner, algorithm, environment cleaners. -/
theorem c4_parameter_error_conditions (src : ParamSources) (cl : CleanerSources)
    (name : String) :
    ((∃ e, parameter src cl name = Except.error e) ↔
      ((src.overridden name = Option.none ∧ src.environ name = Option.none ∧
        src.runner_defaults name = Option.none ∧
        src.algorithm_defaults name = Option.none ∧
        src.environment_defaults name = Option.none) ∨
       (∃ v c reason, scanSources src name = some v ∧
          findCleaner cl name = some c ∧ c v = Except.error reason))) ∧
    (scanSources src name = Option.none →
        parameter src cl name = Except.error (UniConfigurationError.missing name)) ∧
    (∀ v c reason, scanSources src name = some v → findCleaner cl name = some c →
        c v = Except.error reason →
        parameter src cl name =
          Except.error (UniConfigurationError.wrongFormat name v reason)) ∧
    (src.overridden name = some PyVal.pynone → findCleaner cl name = Option.none →
        parameter src cl name = Except.ok PyVal.pynone) ∧
    (∀ c, cl.runner_cleaners name = some c → findCleaner cl name = some c) ∧
    (cl.runner_cleaners name = Option.none →
      ∀ c, cl.algorithm_cleaners name = some c → findCleaner cl name = some c) ∧
    (cl.runner_cleaners name = Option.none →
      cl.algorithm_cleaners name = Option.none →
        findCleaner cl name = cl.environment_cleaners name) := by
  refine ⟨?_, ?_, ?_, ?_, ?_, ?_, ?_⟩
  · constructor
    · rintro ⟨e, he⟩
      by_cases hs : ∃ v, scanSources src name = some v
      · obtain ⟨v, hs⟩ := hs
        rw [parameter_eq_of_found src cl name v hs] at he
        by_cases hc : ∃ c, findCleaner cl name = some c
        · obtain ⟨c, hc⟩ := hc
          cases hcv : c v with
          | ok cleaned =>
            rw [cleanStage_of_cleaner_ok cl name v cleaned c hc hcv] at he
            exact absurd he (by simp)
          | error reason =>
            exact Or.inr ⟨v, c, reason, hs, hc, hcv⟩
        · have hc' : findCleaner cl name = Option.none := by
            cases h : findCleaner cl name with
            | none => rfl
            | some c => exact absurd ⟨c, h⟩ hc
          rw [cleanStage_of_no_cleaner cl name v hc'] at he
          exact absurd he (by simp)
      · have hs' : scanSources src name = Option.none := by
          cases h : scanSources src name with
          | none => rfl
          | some v => exact absurd ⟨v, h⟩ hs
        exact Or.inl ((scanSources_eq_none_iff src name).mp hs')
    · rintro (h | ⟨v, c, reason, hs, hc, hcv⟩)
      · exact ⟨UniConfigurationError.missing name,
          parameter_eq_of_missing src cl name
            ((scanSources_eq_none_iff src name).mpr h)⟩
      · exact ⟨UniConfigurationError.wrongFormat name v reason, by
          rw [parameter_eq_of_found src cl name v hs,
            cleanStage_of_cleaner_error cl name v reason c hc hcv]⟩
  · intro hs
    exact parameter_eq_of_missing src cl name hs
  · intro v c reason hs hc hcv
    rw [parameter_eq_of_found src cl name v hs,
      cleanStage_of_cleaner_error cl name v reason c hc hcv]
  · intro h hc
    have hs : scanSources src name = some PyVal.pynone := by
      simp [scanSources, h]
    rw [parameter_eq_of_found src cl name PyVal.pynone hs,
      cleanStage_of_no_cleaner cl name PyVal.pynone hc]
  · intro c hc
    simp [findCleaner, hc]
  · intro h1 c hc
    simp [findCleaner, h1, hc]
  · intro h1 h2
    simp [findCleaner, h1, h2]

/-- C4 witness: a name absent from all five sources raises the missing
error; the int cleaner applied to a non-numeric string raises the
wrong-format error carrying the value and the reason. -/
theorem c4_parameter_error_conditions_witness :
    parameter
      { overridden := fun _ => Option.none, environ := fun _ => Option.none,
        runner_defaults := fun _ => Option.none,
        algorithm_defaults := fun _ => Option.none,
        environment_defaults := fun _ => Option.none }
      { runner_cleaners := fun _ => Option.none,
        algorithm_cleaners := fun _ => Option.none,
        environment_cleaners := fun _ => Option.none }
      "CPU_NUMBER" = Except.error (UniConfigurationError.missing "CPU_NUMBER") := by
  have h := (c4_parameter_error_conditions
    { overridden := fun _ => Option.none, environ := fun _ => Option.none,
      runner_defaults := fun _ => Option.none,
      algorithm_defaults := fun _ => Option.none,
      environment_defaults := fun _ => Option.none }
    { runner_cleaners := fun _ => Option.none,
      algorithm_cleaners := fun _ => Option.none,
      environment_cleaners := fun _ => Option.none }
    "CPU_NUMBER").2.1 (by rfl)
  exact h

/-- C8 counterexample: the argparse declaration for --mode lists only the
choices train and run, so a command line with --mode info is rejected even
though UniRunner.run has an info branch. -/
theorem c8_counterexample_info_rejected :
    parse_mode (some "info") = Except.error "invalid choice" := by
  simp [parse_mode, mode_choices]

/-- C8 amended: the command-line parser accepts --mode with exactly the two
values train and run and defaults to train when --mode is not given; the
run dispatcher separately recognizes the mode string info (reachable only
by constructing the runner directly). -/
theorem c8_mode_parsing :
    (∀ s, parse_mode (some s) = Except.ok s ↔ (s = "train" ∨ s = "run")) ∧
    parse_mode Option.none = Except.ok "train" ∧
    run_dispatch "train" = RunBranch.run_training_branch ∧
    run_dispatch "run" = RunBranch.run_model_branch ∧
    run_dispatch "info" = RunBranch.run_info_branch := by
  refine ⟨?_, rfl, by decide, by decide, by decide⟩
  intro s
  have hm : s ∈ mode_choices ↔ (s = "train" ∨ s = "run") := by
    simp [mode_choices]
  constructor
  · intro hk
    by_cases h : s ∈ mode_choices
    · exact hm.mp h
    · simp [parse_mode, h] at hk
  · intro hs
    have h : s ∈ mode_choices := hm.mpr hs
    simp [parse_mode, h]

/-- The heartbeat issues a call exactly when the value changed and the
throttle allows it: forced, first report, or over 5 seconds since the last
issued report. -/
theorem update_episode_count_true_iff (st : SyncState) (now : ℚ) (eps : ℤ)
    (force : Bool) :
    (update_episode_count false st now eps force).2 = true ↔
      ((force = true ∨ st.last_update_episode_time = Option.none ∨
         ∃ t, st.last_update_episode_time = some t ∧ now - t > 5) ∧
       st.last_update_episode ≠ some eps) := by
  cases hti : st.last_update_episode_time with
  | none =>
    by_cases he : st.last_update_episode = some eps <;>
      cases force <;>
        simp [update_episode_count, heartbeatDue, hti, he]
  | some t =>
    by_cases he : st.last_update_episode = some eps <;>
      cases force <;>
        by_cases hn : now - t > 5 <;>
          simp [update_episode_count, heartbeatDue, hti, he, hn]

/-- When a heartbeat call is issued, both bookkeeping attributes are set to
the current time and episode value. -/
theorem update_episode_count_state_of_true (st : SyncState) (now : ℚ)
    (eps : ℤ) (force : Bool)
    (h : (update_episode_count false st now eps force).2 = true) :
    (update_episode_count false st now eps force).1 =
      { last_update_episode_time := some now, last_update_episode := some eps } := by
  by_cases hd : heartbeatDue st now force = true
  · by_cases he : st.last_update_episode = some eps
    · simp [update_episode_count, hd, he] at h
    · simp [update_episode_count, hd, he]
  · simp [update_episode_count, hd] at h

/-- C6: a heartbeat call is issued only when the episode count changed and
(forced, or first report, or more than 5 seconds since the last issued
report); two updates with the same count produce at most one call; forcing
never bypasses the unchanged-value check; and a second unforced call can
only be issued more than 5 seconds after the first. -/
theorem c6_update_episode_count_throttling :
    (∀ (st : SyncState) (now : ℚ) (eps : ℤ) (force : Bool),
      (update_episode_count false st now eps force).2 = true ↔
        ((force = true ∨ st.last_update_episode_time = Option.none ∨
           ∃ t, st.last_update_episode_time = some t ∧ now - t > 5) ∧
         st.last_update_episode ≠ some eps)) ∧
    (∀ (st : SyncState) (t1 t2 : ℚ) (eps : ℤ) (f1 f2 : Bool),
      ¬((update_episode_count false st t1 eps f1).2 = true ∧
        (update_episode_count false (update_episode_count false st t1 eps f1).1
          t2 eps f2).2 = true)) ∧
    (∀ (st : SyncState) (now : ℚ) (eps : ℤ),
      st.last_update_episode = some eps →
      (update_episode_count false st now eps true).2 = false) ∧
    (∀ (st : SyncState) (t1 t2 : ℚ) (e1 e2 : ℤ) (f1 : Bool),
      (update_episode_count false st t1 e1 f1).2 = true →
      (update_episode_count false (update_episode_count false st t1 e1 f1).1
        t2 e2 false).2 = true →
      t2 - t1 > 5) := by
  refine ⟨update_episode_count_true_iff, ?_, ?_, ?_⟩
  · rintro st t1 t2 eps f1 f2 ⟨h1, h2⟩
    rw [update_episode_count_state_of_true st t1 eps f1 h1] at h2
    have h3 := (update_episode_count_true_iff _ t2 eps f2).mp h2
    exact h3.2 rfl
  · intro st now eps he
    cases hb : (update_episode_count false st now eps true).2 with
    | false => rfl
    | true =>
      have h := (update_episode_count_true_iff st now eps true).mp hb
      exact absurd he h.2
  · intro st t1 t2 e1 e2 f1 h1 h2
    rw [update_episode_count_state_of_true st t1 e1 f1 h1] at h2
    have h3 := (update_episode_count_true_iff _ t2 e2 false).mp h2
    rcases h3.1 with hf | hn | ⟨t, ht, hgt⟩
    · exact absurd hf (by simp)
    · exact absurd (show (some t1 : Option ℚ) = Option.none from hn) (by simp)
    · have ht' : t1 = t := Option.some.inj ht
      rw [← ht'] at hgt
      exact hgt

/-- C6 witness: a forced update with an unchanged episode count issues no
call. -/
theorem c6_update_episode_count_throttling_witness :
    (update_episode_count false
      { last_update_episode_time := some 0, last_update_episode := some 7 }
      10 7 true).2 = false :=
  c6_update_episode_count_throttling.2.2.1
    { last_update_episode_time := some 0, last_update_episode := some 7 }
    10 7 rfl

/-- An Except value is a success exactly when it is Except.ok of something. -/
theorem exceptOk_eq_true_iff {ε α : Type} (e : Except ε α) :
    exceptOk e = true ↔ ∃ a, e = Except.ok a := by
  cases e <;> simp [exceptOk]

/-- model_save always performs the local checkpoint-state update, whatever
the network does. -/
theorem model_save_api_state (net : Network) (isLocal : Bool) (cst : RunState)
    (score : ℚ) (ep : ℤ) :
    (model_save_api net isLocal cst score ep).1 = model_save_state cst score ep := by
  unfold model_save_api call_uni_api
  cases isLocal with
  | true => rfl
  | false =>
    cases hr : net (ApiCall.post_model_score score) with
    | error e => simp [hr]
    | ok r =>
      by_cases h201 : r.status_code = 201
      · cases hr2 : net (ApiCall.put_model_archive r.upload_url) with
        | error e => simp [hr, hr2, h201]
        | ok r2 =>
          by_cases h200 : r2.status_code = 200
          · cases hr3 : net (ApiCall.patch_model_uploaded r.model_id) with
            | error e => simp [hr, hr2, hr3, h201, h200]
            | ok r3 => simp [hr, hr2, hr3, h201, h200]
          · simp [hr, hr2, h201, h200]
      · by_cases h204 : r.status_code = 204 <;> simp [hr, h201, h204]

/-- C1 counterexample: _call_uni_api wraps nothing in try/except, so a
connection error raised while PATCHing the heartbeat propagates out of
update_episode_count, and one raised while POSTing the saved model score
propagates out of model_save — contradicting the claim that no exception
propagates out of these operations. -/
theorem c1_counterexample_network_error_propagates :
    (update_episode_count_api (fun _ => Except.error NetError.connectionError)
        false initSyncState 0 1 false).2 =
      Except.error NetError.connectionError ∧
    (model_save_api (fun _ => Except.error NetError.connectionError)
        false initRunState 5 21).2.2 =
      Except.error NetError.connectionError := by
  exact ⟨rfl, rfl⟩

/-- C1 amended: failures the requests library reports as HTTP responses
(any status code) are handled in the code of update_episode_count and
model_save without raising — error statuses only produce log events — and
the local checkpoint-state update of model_save always happens; but an
exception raised by the library itself propagates out of both operations
(in train mode it is then caught once at the run boundary). -/
theorem c1_api_status_failures_swallowed (net : Network)
    (h : ∀ c, exceptOk (net c) = true)
    (isLocal : Bool) (st : SyncState) (now : ℚ) (eps : ℤ) (force : Bool)
    (cst : RunState) (score : ℚ) (ep : ℤ) :
    exceptOk (update_episode_count_api net isLocal st now eps force).2 = true ∧
    exceptOk (model_save_api net isLocal cst score ep).2.2 = true ∧
    (model_save_api net isLocal cst score ep).1 = model_save_state cst score ep := by
  have hnet : ∀ c, ∃ r, net c = Except.ok r := by
    intro c
    exact (exceptOk_eq_true_iff (net c)).mp (h c)
  refine ⟨?_, ?_, model_save_api_state net isLocal cst score ep⟩
  · unfold update_episode_count_api call_uni_api
    cases isLocal with
    | true => rfl
    | false =>
      by_cases hd : heartbeatDue st now force = true
      · by_cases he : st.last_update_episode = some eps
        · simp [hd, he, exceptOk]
        · obtain ⟨r, hr⟩ := hnet (ApiCall.patch_episodes eps)
          simp [hd, he, hr, exceptOk]
      · simp [hd, exceptOk]
  · unfold model_save_api call_uni_api
    cases isLocal with
    | true => rfl
    | false =>
      obtain ⟨r, hr⟩ := hnet (ApiCall.post_model_score score)
      by_cases h201 : r.status_code = 201
      · obtain ⟨r2, hr2⟩ := hnet (ApiCall.put_model_archive r.upload_url)
        by_cases h200 : r2.status_code = 200
        · obtain ⟨r3, hr3⟩ := hnet (ApiCall.patch_model_uploaded r.model_id)
          simp [hr, hr2, hr3, h201, h200, exceptOk]
        · simp [hr, hr2, h201, h200, exceptOk]
      · by_cases h204 : r.status_code = 204 <;> simp [hr, h201, h204, exceptOk]

/-- C1 witness: with a network that always answers with a status-500
response, both the heartbeat and the model publication complete without a
propagated exception. -/
theorem c1_api_status_failures_swallowed_witness :
    exceptOk (update_episode_count_api
      (fun _ => Except.ok { status_code := 500, upload_url := "", model_id := 0 })
      false initSyncState 0 1 false).2 = true ∧
    exceptOk (model_save_api
      (fun _ => Except.ok { status_code := 500, upload_url := "", model_id := 0 })
      false initRunState 5 21).2.2 = true :=
  ⟨(c1_api_status_failures_swallowed
      (fun _ => Except.ok { status_code := 500, upload_url := "", model_id := 0 })
      (fun _ => rfl) false initSyncState 0 1 false initRunState 5 21).1,
   (c1_api_status_failures_swallowed
      (fun _ => Except.ok { status_code := 500, upload_url := "", model_id := 0 })
      (fun _ => rfl) false initSyncState 0 1 false initRunState 5 21).2.1⟩

/-- C9: the override dictionary is class-level shared state: constructing a
second runner with a parameters dict updates the same dictionary the first
runner reads, so either instance's constructor overrides are visible in the
other instance's parameter resolution; and the resolution operation itself
leaves the shared dictionary unchanged. -/
theorem c9_overrides_shared_across_instances
    (st : ClassState) (pA pB : String → Option PyVal) (name : String) (v : PyVal)
    (environ runner_defaults algorithm_defaults environment_defaults :
      String → Option PyVal)
    (cl : CleanerSources) :
    (pB name = some v →
      (uni_runner_init (uni_runner_init st (some pA)) (some pB)).parameters_overridden
        name = some v) ∧
    (pB name = Option.none → pA name = some v →
      (uni_runner_init (uni_runner_init st (some pA)) (some pB)).parameters_overridden
        name = some v) ∧
    (pB name = some v → findCleaner cl name = Option.none →
      (instance_parameter (uni_runner_init (uni_runner_init st (some pA)) (some pB))
        environ runner_defaults algorithm_defaults environment_defaults cl name).1 =
        Except.ok v) ∧
    (∀ st2 : ClassState,
      (instance_parameter st2 environ runner_defaults algorithm_defaults
        environment_defaults cl name).2 = st2) := by
  refine ⟨?_, ?_, ?_, fun st2 => rfl⟩
  · intro h
    simp [uni_runner_init, dict_update, h]
  · intro hB hA
    simp [uni_runner_init, dict_update, hB, hA]
  · intro h hc
    have hs : scanSources
        { overridden := (uni_runner_init (uni_runner_init st (some pA))
            (some pB)).parameters_overridden,
          environ := environ, runner_defaults := runner_defaults,
          algorithm_defaults := algorithm_defaults,
          environment_defaults := environment_defaults } name = some v := by
      simp [scanSources, uni_runner_init, dict_update, h]
    show parameter _ cl name = Except.ok v
    rw [parameter_eq_of_found _ cl name v hs, cleanStage_of_no_cleaner cl name v hc]

/-- C9 witness: overrides seeded by a second construction are read back
through the first instance's resolution over the shared dictionary. -/
theorem c9_overrides_shared_across_instances_witness :
    (instance_parameter
      (uni_runner_init
        (uni_runner_init { parameters_overridden := fun _ => Option.none }
          (some fun n => if n = "A" then some (PyVal.pyint 1) else Option.none))
        (some fun n => if n = "B" then some (PyVal.pyint 2) else Option.none))
      (fun _ => Option.none) (fun _ => Option.none) (fun _ => Option.none)
      (fun _ => Option.none)
      { runner_cleaners := fun _ => Option.none,
        algorithm_cleaners := fun _ => Option.none,
        environment_cleaners := fun _ => Option.none } "B").1 =
      Except.ok (PyVal.pyint 2) :=
  (c9_overrides_shared_across_instances
    { parameters_overridden := fun _ => Option.none }
    (fun n => if n = "A" then some (PyVal.pyint 1) else Option.none)
    (fun n => if n = "B" then some (PyVal.pyint 2) else Option.none)
    "B" (PyVal.pyint 2)
    (fun _ => Option.none) (fun _ => Option.none) (fun _ => Option.none)
    (fun _ => Option.none)
    { runner_cleaners := fun _ => Option.none,
      algorithm_cleaners := fun _ => Option.none,
      environment_cleaners := fun _ => Option.none }).2.2.1 (by simp) rfl

/-- After at least one loop iteration every loop local of run_training is
bound. -/
theorem run_training_foldl_assigned (freq : ℤ) (window : Nat) :
    ∀ (bs : List (List ℚ)) (p : RunState × TrainLocals), bs ≠ [] →
      ∃ a m e, (List.foldl (run_training_iteration freq window) p bs).2 =
        { episodes_rewards := some a, model_score := some m, episode := some e } := by
  intro bs
  induction bs with
  | nil => intro p h; exact absurd rfl h
  | cons b bs ih =>
    intro p _
    rw [List.foldl_cons]
    cases bs with
    | nil =>
      exact ⟨b, get_model_score b window, (b.length : ℤ), rfl⟩
    | cons b2 bs2 =>
      exact ih _ (List.cons_ne_nil b2 bs2)

/-- C10: run_training completes without error exactly when the training
generator yielded at least one reward batch; with zero yielded batches (for
example an EPISODES budget of 0) the post-loop statements reference the
never-assigned loop local episodes_rewards and raise an unbound-local
error. -/
theorem c10_run_training_unbound_local (freq : ℤ) (window : Nat)
    (st0 : RunState) (batches : List (List ℚ)) (episode_total : Nat → ℚ) :
    (exceptOk (run_training freq window st0 batches) = true ↔ batches ≠ []) ∧
    run_training freq window st0 (train_batches 0 episode_total) =
      Except.error (PyError.unbound_local "episodes_rewards") := by
  constructor
  · constructor
    · intro h hemp
      subst hemp
      simp [run_training, exceptOk] at h
    · intro hne
      obtain ⟨a, m, e, hfold⟩ := run_training_foldl_assigned freq window batches
        (st0, { episodes_rewards := Option.none, model_score := Option.none,
                episode := Option.none }) hne
      simp [run_training, hfold, exceptOk]
  · have hz : train_batches 0 episode_total = [] := by simp [train_batches]
    rw [hz]
    rfl

/-- The events one run_model loop transition can emit: the episode header
emits a reset; a step-loop body emits an optional render, the action query
and the environment step. -/
theorem run_model_step_events {Obs Act : Type} (env : DemoEnv Obs Act)
    (doRender : Bool) (s : DemoState Obs) :
    (run_model_step env doRender s).2 = [RunEvent.reset_env] ∨
    (run_model_step env doRender s).2 =
      (if doRender then [RunEvent.render_env] else []) ++
        [RunEvent.action_query, RunEvent.env_step] := by
  unfold run_model_step
  by_cases h : s.is_done = true
  · rw [if_pos h]
    exact Or.inl rfl
  · rw [if_neg h]
    exact Or.inr rfl

/-- Any event a loop transition emits is a reset, render, action query or
environment step. -/
theorem run_model_step_events_mem {Obs Act : Type} (env : DemoEnv Obs Act)
    (doRender : Bool) (s : DemoState Obs) (e : RunEvent)
    (he : e ∈ (run_model_step env doRender s).2) :
    e = RunEvent.reset_env ∨ e = RunEvent.render_env ∨
      e = RunEvent.action_query ∨ e = RunEvent.env_step := by
  rcases run_model_step_events env doRender s with h | h <;> rw [h] at he
  · simp at he
    tauto
  · cases doRender <;> simp at he <;> tauto

/-- With rendering disabled no loop transition emits a render event. -/
theorem run_model_step_no_render {Obs Act : Type} (env : DemoEnv Obs Act)
    (s : DemoState Obs)
    (he : RunEvent.render_env ∈ (run_model_step env false s).2) : False := by
  rcases run_model_step_events env false s with h | h <;> rw [h] at he <;> simp at he

/-- Unfolding one transition of the run_model trace. -/
theorem run_model_trace_succ {Obs Act : Type} (env : DemoEnv Obs Act)
    (doRender : Bool) (n : Nat) :
    (run_model_trace env doRender (n + 1)).2 =
      (run_model_trace env doRender n).2 ++
        (run_model_step env doRender (run_model_trace env doRender n).1).2 := rfl

/-- The model is loaded exactly once, before the loop. -/
theorem run_model_trace_load_count {Obs Act : Type} (env : DemoEnv Obs Act)
    (doRender : Bool) : ∀ n,
    ((run_model_trace env doRender n).2).count RunEvent.load = 1 := by
  intro n
  induction n with
  | zero => rfl
  | succ n ih =>
    rw [run_model_trace_succ, List.count_append, ih]
    have hz : ((run_model_step env doRender
        (run_model_trace env doRender n).1).2).count RunEvent.load = 0 := by
      rcases run_model_step_events env doRender (run_model_trace env doRender n).1
        with h | h <;> rw [h]
      · rfl
      · cases doRender <;> rfl
    rw [hz]

/-- No event other than load, reset, render, action query and environment
step ever appears in the run_model trace. -/
theorem run_model_trace_not_mem {Obs Act : Type} (env : DemoEnv Obs Act)
    (doRender : Bool) (e : RunEvent)
    (h1 : e ≠ RunEvent.load) (h2 : e ≠ RunEvent.reset_env)
    (h3 : e ≠ RunEvent.render_env) (h4 : e ≠ RunEvent.action_query)
    (h5 : e ≠ RunEvent.env_step) :
    ∀ n, e ∉ (run_model_trace env doRender n).2 := by
  intro n
  induction n with
  | zero =>
    intro hmem
    simp [run_model_trace] at hmem
    exact h1 hmem
  | succ n ih =>
    rw [run_model_trace_succ]
    intro hmem
    rcases List.mem_append.mp hmem with hm | hm
    · exact ih hm
    · rcases run_model_step_events_mem env doRender _ e hm with h | h | h | h
      · exact h2 h
      · exact h3 h
      · exact h4 h
      · exact h5 h

/-- With rendering disabled the trace never renders. -/
theorem run_model_trace_no_render {Obs Act : Type} (env : DemoEnv Obs Act) :
    ∀ n, RunEvent.render_env ∉ (run_model_trace env false n).2 := by
  intro n
  induction n with
  | zero => simp [run_model_trace]
  | succ n ih =>
    rw [run_model_trace_succ]
    intro hmem
    rcases List.mem_append.mp hmem with hm | hm
    · exact ih hm
    · exact run_model_step_no_render env _ hm

/-- The trace only grows. -/
theorem run_model_trace_mem_mono {Obs Act : Type} (env : DemoEnv Obs Act)
    (doRender : Bool) (e : RunEvent) (n : Nat)
    (h : e ∈ (run_model_trace env doRender n).2) :
    e ∈ (run_model_trace env doRender (n + 1)).2 := by
  rw [run_model_trace_succ]
  exact List.mem_append_left _ h

/-- With rendering enabled the second transition (the first step-loop body)
already renders. -/
theorem run_model_trace_render_mem {Obs Act : Type} (env : DemoEnv Obs Act) :
    ∀ n, 2 ≤ n → RunEvent.render_env ∈ (run_model_trace env true n).2 := by
  intro n
  induction n with
  | zero => omega
  | succ n ih =>
    intro hn
    by_cases h2 : 2 ≤ n
    · exact run_model_trace_mem_mono env true _ n (ih h2)
    · have hn1 : n = 1 := by omega
      subst hn1
      simp [run_model_trace, run_model_step, run_model_init]

/-- Every transition emits at least one event: the loop never halts. -/
theorem run_model_trace_length {Obs Act : Type} (env : DemoEnv Obs Act)
    (doRender : Bool) : ∀ n,
    n + 1 ≤ (run_model_trace env doRender n).2.length := by
  intro n
  induction n with
  | zero => simp [run_model_trace]
  | succ n ih =>
    rw [run_model_trace_succ, List.length_append]
    have hpos : 1 ≤ (run_model_step env doRender
        (run_model_trace env doRender n).1).2.length := by
      rcases run_model_step_events env doRender (run_model_trace env doRender n).1
        with h | h <;> rw [h]
      · simp
      · cases doRender <;> simp
    omega

/-- C7: the run-mode trace loads the model exactly once, never queries the
training action, never saves and issues no remote call, renders exactly
when rendering is enabled, and keeps emitting events at every transition —
the loop has no internal termination condition. -/
theorem c7_run_model_demo_loop {Obs Act : Type} (env : DemoEnv Obs Act)
    (doRender : Bool) (fuel : Nat) :
    ((run_model_trace env doRender fuel).2.count RunEvent.load = 1) ∧
    RunEvent.action_train_query ∉ (run_model_trace env doRender fuel).2 ∧
    RunEvent.save_model ∉ (run_model_trace env doRender fuel).2 ∧
    RunEvent.remote_call ∉ (run_model_trace env doRender fuel).2 ∧
    (doRender = false →
      RunEvent.render_env ∉ (run_model_trace env doRender fuel).2) ∧
    (doRender = true → 2 ≤ fuel →
      RunEvent.render_env ∈ (run_model_trace env doRender fuel).2) ∧
    fuel + 1 ≤ (run_model_trace env doRender fuel).2.length := by
  refine ⟨run_model_trace_load_count env doRender fuel,
    run_model_trace_not_mem env doRender _ (by simp) (by simp) (by simp)
      (by simp) (by simp) fuel,
    run_model_trace_not_mem env doRender _ (by simp) (by simp) (by simp)
      (by simp) (by simp) fuel,
    run_model_trace_not_mem env doRender _ (by simp) (by simp) (by simp)
      (by simp) (by simp) fuel,
    ?_, ?_, run_model_trace_length env doRender fuel⟩
  · intro h
    subst h
    exact run_model_trace_no_render env fuel
  · intro h hf
    subst h
    exact run_model_trace_render_mem env fuel hf

/-- A trivial demo environment over the unit observation and action types. -/
def demoUnitEnv : DemoEnv Unit Unit :=
  { reset := (), stepf := fun _ _ => ((), 0, true), action := fun _ _ _ => () }

/-- C7 witness: with rendering on and two transitions the trace renders
and still contains no save event. -/
theorem c7_run_model_demo_loop_witness :
    RunEvent.render_env ∈ (run_model_trace demoUnitEnv true 2).2 ∧
    RunEvent.save_model ∉ (run_model_trace demoUnitEnv true 2).2 := by
  have h := c7_run_model_demo_loop demoUnitEnv true 2
  exact ⟨h.2.2.2.2.2.1 rfl (by omega), h.2.2.1⟩

end Uni
